import Mathlib

/-!
Shallow embedding of `tlsprofiler` (src/tlsprofiler/__init__.py): the
compliance evaluation engine that compares TLS scan observations against a
named Mozilla security profile and produces a structured report.

External scanner result types (sslyze) are modelled as plain records holding
exactly the fields the profiler reads.  Python sets become `Finset String`,
Python lists become `List`, optional values become `Option`, and the uncaught
`KeyError` a Python dict lookup can raise becomes an explicit error value.
-/

namespace TLSProfilerModel

/-- A Mozilla security profile, one value of the `configurations` map of the
profile JSON document: `tls_versions`, `openssl_ciphersuites`,
`openssl_ciphers` (arrays of strings) and `hsts_min_age` (integer). -/
structure SecurityProfile where
  tls_versions : List String
  openssl_ciphersuites : List String
  openssl_ciphers : List String
  hsts_min_age : Int
deriving Repr, DecidableEq

/-- The fetched profile document: a `version` field and a `configurations`
map keyed by profile name (modelled as an association list, as the document
is untrusted and a name may be absent). -/
structure ProfilesDocument where
  version : String
  configurations : List (String × SecurityProfile)
deriving Repr

/-- A Python exception escaping the code unhandled.  The profiler's
`__init__` looks the profile name up with `PROFILES['configurations'][name]`,
which raises `KeyError` when the name is absent. -/
inductive PyExc where
  | keyError (key : String)
deriving Repr, DecidableEq

/-- Embedding of the dict lookup
`TLSProfiler.PROFILES['configurations'][target_profile_name]` (line 53):
Python dict indexing returns the value or raises an uncaught `KeyError`. -/
def lookupTargetProfile (doc : ProfilesDocument) (target_profile_name : String) :
    Except PyExc SecurityProfile :=
  match doc.configurations.lookup target_profile_name with
  | some p => Except.ok p
  | none => Except.error (PyExc.keyError target_profile_name)

/-- `sslyze` trust store: the profiler reads only its `name`. -/
structure TrustStore where
  name : String
deriving Repr, DecidableEq

/-- One entry of `result.path_validation_result_list`. -/
structure PathValidationResult where
  trust_store : TrustStore
  was_validation_successful : Bool
  verify_string : String
deriving Repr, DecidableEq

/-- One entry of `result.path_validation_error_list`. -/
structure PathValidationError where
  error_message : String
deriving Repr, DecidableEq

/-- The fields of sslyze's `CertificateInfoScanResult` that
`check_certificate` reads. -/
structure CertificateInfoScanResult where
  path_validation_result_list : List PathValidationResult
  path_validation_error_list : List PathValidationError
  leaf_certificate_subject_matches_hostname : Bool
  received_chain_has_valid_order : Bool
  verified_chain_has_sha1_signature : Bool
  verified_chain_has_legacy_symantec_anchor : Bool
  leaf_certificate_signed_certificate_timestamps_count : Nat
deriving Repr, DecidableEq

/-- The HSTS header object of sslyze's `HttpHeadersScanResult`; the profiler
reads only `max_age`. -/
structure StrictTransportSecurityHeader where
  max_age : Int
deriving Repr, DecidableEq

/-- sslyze's `RobotScanResultEnum`. -/
inductive RobotScanResultEnum where
  | VULNERABLE_WEAK_ORACLE
  | VULNERABLE_STRONG_ORACLE
  | NOT_VULNERABLE_NO_ORACLE
  | NOT_VULNERABLE_RSA_NOT_SUPPORTED
  | UNKNOWN_INCONSISTENT_RESULTS
deriving Repr, DecidableEq

/-- Everything the target server answers to the scan commands the profiler
issues.  `accepted_cipher_names` gives, per protocol-scan-command name, the
`openssl_name`s of the accepted ciphers (`result.accepted_cipher_list`). -/
structure ServerScanResponses where
  accepted_cipher_names : String → List String
  certificate_info : CertificateInfoScanResult
  strict_transport_security_header : Option StrictTransportSecurityHeader
  is_vulnerable_to_heartbleed : Bool
  is_vulnerable_to_ccs_injection : Bool
  robot_result_enum : RobotScanResultEnum

/-- The keys of `TLSProfiler.SCAN_COMMANDS` in insertion order (lines 38-45);
a Python 3.7+ dict iterates in insertion order. -/
def SCAN_COMMANDS_keys : List String :=
  ["SSLv2", "SSLv3", "TLSv1", "TLSv1.1", "TLSv1.2", "TLSv1.3"]

/-- The loop body of `scan_supported_ciphers_and_protocols` (lines 91-97):
walk the scan-command names in order, concatenating accepted cipher names
into `supported_ciphers` and appending the protocol name to
`supported_protocols` when at least one cipher was accepted. -/
def scanLoop (f : String → List String) : List String → List String × List String
  | [] => ([], [])
  | n :: ns =>
    let rest := scanLoop f ns
    (f n ++ rest.1, (if (f n).length ≠ 0 then [n] else []) ++ rest.2)

/-- The supported protocol/cipher sets a scan run produces
(`self.supported_ciphers`, `self.supported_protocols`, lines 99-100). -/
structure SupportedSets where
  supported_ciphers : Finset String
  supported_protocols : Finset String
deriving DecidableEq

/-- `scan_supported_ciphers_and_protocols` (lines 88-100): run the loop over
the fixed command list, then take `set(...)` of both accumulators. -/
def scan_supported_ciphers_and_protocols (f : String → List String) : SupportedSets :=
  let r := scanLoop f SCAN_COMMANDS_keys
  { supported_ciphers := r.1.toFinset, supported_protocols := r.2.toFinset }

/-- The error message `f'must not support "{x}"'` (lines 109 and 115). -/
def mustNotSupportMsg (x : String) : String :=
  "must not support \"" ++ x ++ "\""

/-- `check_server_matches_profile` (lines 102-117): set-difference the
observed protocols and ciphers against the profile allow-lists and emit one
error per element of each difference (protocols first, then ciphers; the
Python set iteration order is unspecified, determinised here by sorting). -/
def check_server_matches_profile (sup : SupportedSets) (profile : SecurityProfile) :
    List String :=
  let allowed_protocols := profile.tls_versions.toFinset
  let illegal_protocols := sup.supported_protocols \ allowed_protocols
  let allowed_ciphers := (profile.openssl_ciphersuites ++ profile.openssl_ciphers).toFinset
  let illegal_ciphers := sup.supported_ciphers \ allowed_ciphers
  (illegal_protocols.sort (· ≤ ·)).map mustNotSupportMsg
    ++ (illegal_ciphers.sort (· ≤ ·)).map mustNotSupportMsg

/-- `check_hsts_age` (lines 119-130): absent header yields one fixed error;
a present header yields one error naming the observed age when it is below
the profile minimum, and nothing otherwise. -/
def check_hsts_age (hdr : Option StrictTransportSecurityHeader)
    (profile : SecurityProfile) : List String :=
  match hdr with
  | some h =>
    if h.max_age < profile.hsts_min_age then
      ["wrong HSTS age " ++ toString h.max_age]
    else []
  | none => ["HSTS header not set"]

/-- The per-failing-trust-store message of `check_certificate` (line 139). -/
def pathValidationMsg (r : PathValidationResult) : String :=
  "validation not successful: " ++ r.verify_string
    ++ " (trust store " ++ r.trust_store.name ++ ")"

/-- The aggregated chain-building-error message of `check_certificate`
(lines 141-143). -/
def pathErrorListMsg (l : List PathValidationError) : String :=
  "Validation failed: " ++ String.intercalate ", " (l.map (fun fail => fail.error_message))

/-- The too-few-SCTs message of `check_certificate` (lines 157-159),
including the observed count (the source spells "enought"). -/
def sctMsg (n : Nat) : String :=
  "Not enought SCTs in certificate, only found " ++ toString n ++ "."

/-- `check_certificate` (lines 132-168): each rule is evaluated
independently and appends its errors in source order. -/
def check_certificate (result : CertificateInfoScanResult) : List String :=
  ((result.path_validation_result_list.filter
      (fun r => !r.was_validation_successful)).map pathValidationMsg)
    ++ (if result.path_validation_error_list.isEmpty then []
        else [pathErrorListMsg result.path_validation_error_list])
    ++ (if result.leaf_certificate_subject_matches_hostname then []
        else ["Leaf certificate subject does not match hostname!"])
    ++ (if result.received_chain_has_valid_order then []
        else ["Certificate chain has wrong order."])
    ++ (if result.verified_chain_has_sha1_signature then
          ["SHA1 signature found in chain."] else [])
    ++ (if result.verified_chain_has_legacy_symantec_anchor then
          ["Symantec legacy certificate found in chain."] else [])
    ++ (if result.leaf_certificate_signed_certificate_timestamps_count < 2 then
          [sctMsg result.leaf_certificate_signed_certificate_timestamps_count] else [])

def heartbleedMsg : String := "Server is vulnerable to Heartbleed attack"

def ccsInjectionMsg : String :=
  "Server is vulnerable to OpenSSL CCS Injection (CVE-2014-0224)"

def robotMsg : String := "Server is vulnerable to ROBOT attack."

/-- `check_vulnerabilities` (lines 170-191): Heartbleed, then CCS injection,
then ROBOT (vulnerable when the enum is in the two-oracle list). -/
def check_vulnerabilities (is_vulnerable_to_heartbleed : Bool)
    (is_vulnerable_to_ccs_injection : Bool)
    (robot_result_enum : RobotScanResultEnum) : List String :=
  (if is_vulnerable_to_heartbleed then [heartbleedMsg] else [])
    ++ (if is_vulnerable_to_ccs_injection then [ccsInjectionMsg] else [])
    ++ (if robot_result_enum ∈ [RobotScanResultEnum.VULNERABLE_WEAK_ORACLE,
          RobotScanResultEnum.VULNERABLE_STRONG_ORACLE] then [robotMsg] else [])

/-- `TLSProfilerResult` (lines 16-26): the three error lists plus the four
booleans its `__init__` derives from them. -/
structure TLSProfilerResult where
  validation_errors : List String
  profile_errors : List String
  vulnerability_errors : List String
  validated : Bool
  profile_matched : Bool
  vulnerable : Bool
  all_ok : Bool
deriving Repr, DecidableEq

/-- `TLSProfilerResult.__init__` (lines 17-26): store the three lists and
derive `validated`, `profile_matched`, `vulnerable` and `all_ok`. -/
def mkTLSProfilerResult (validation_errors profile_errors vulnerability_errors :
    List String) : TLSProfilerResult :=
  let validated := validation_errors.length == 0
  let profile_matched := profile_errors.length == 0
  let vulnerable := decide (vulnerability_errors.length > 0)
  { validation_errors := validation_errors
    profile_errors := profile_errors
    vulnerability_errors := vulnerability_errors
    validated := validated
    profile_matched := profile_matched
    vulnerable := vulnerable
    all_ok := validated && profile_matched && !vulnerable }

/-- The body of `TLSProfiler.run` after the connectivity guard (lines
73-83): run the four checkers and build the result, passing
`profile_errors + hsts_errors` as the profile-error list. -/
def runChecks (profile : SecurityProfile) (s : ServerScanResponses) :
    TLSProfilerResult :=
  let certificate_validation_errors := check_certificate s.certificate_info
  let hsts_errors := check_hsts_age s.strict_transport_security_header profile
  let sup := scan_supported_ciphers_and_protocols s.accepted_cipher_names
  let profile_errors := check_server_matches_profile sup profile
  let vulnerability_errors := check_vulnerabilities s.is_vulnerable_to_heartbleed
    s.is_vulnerable_to_ccs_injection s.robot_result_enum
  mkTLSProfilerResult certificate_validation_errors
    (profile_errors ++ hsts_errors) vulnerability_errors

/-- sslyze's `ServerConnectivityError` as the profiler consumes it: the
hostname of the attempted target (`e.server_info.hostname`, only logged) and
the human-readable `e.error_message`. -/
structure ServerConnectivityError where
  hostname : String
  error_message : String
deriving Repr, DecidableEq

/-- The profiler state after `__init__` (lines 47-67): the looked-up
profile, and either the connected server (`server_info`) or the stored
connectivity failure message (`server_error`). -/
structure TLSProfilerState where
  target_profile : SecurityProfile
  server_info : Option ServerScanResponses
  server_error : Option String

/-- The connectivity part of `TLSProfiler.__init__` (lines 56-67): on
success store the server info and no error; on `ServerConnectivityError`
store `e.error_message` and no server info. -/
def initProfiler (target_profile : SecurityProfile)
    (conn : Except ServerConnectivityError ServerScanResponses) :
    TLSProfilerState :=
  match conn with
  | Except.ok info =>
    { target_profile := target_profile, server_info := some info, server_error := none }
  | Except.error e =>
    { target_profile := target_profile, server_info := none,
      server_error := some e.error_message }

/-- `TLSProfiler.run` (lines 69-83): with no server info (connectivity
failed) return `None` and no report; otherwise run the checks. -/
def run (p : TLSProfilerState) : Option TLSProfilerResult :=
  match p.server_info with
  | none => none
  | some s => some (runChecks p.target_profile s)

/-! ### Helper lemmas and concrete demonstration values -/

lemma sort_le_eq_nil (s : Finset String) : s.sort (· ≤ ·) = [] ↔ s = ∅ := by
  constructor
  · intro h
    ext a
    simp only [Finset.not_mem_empty, iff_false]
    intro ha
    have h2 := (Finset.mem_sort (α := String) (· ≤ ·)).mpr ha
    rw [h] at h2
    simp at h2
  · rintro rfl
    exact Finset.sort_empty _

lemma mustNotSupportMsg_injective : Function.Injective mustNotSupportMsg := by
  intro x y h
  have h2 := congrArg String.data h
  simp only [mustNotSupportMsg, String.data_append, List.append_assoc] at h2
  exact String.ext (List.append_cancel_right (List.append_cancel_left h2))

/-- A concrete profile in the shape of the Mozilla document entries. -/
def demoProfile : SecurityProfile :=
  { tls_versions := ["TLSv1.2", "TLSv1.3"]
    openssl_ciphersuites := ["TLS_AES_128_GCM_SHA256", "TLS_AES_256_GCM_SHA384"]
    openssl_ciphers := ["ECDHE-RSA-AES128-GCM-SHA256"]
    hsts_min_age := 15768000 }

/-- A concrete scan outcome: the server also answers on SSLv3. -/
def demoSupported : SupportedSets :=
  { supported_ciphers := {"TLS_AES_128_GCM_SHA256"}
    supported_protocols := {"SSLv3", "TLSv1.2"} }

/-! ### C1: protocol/cipher compliance is set difference against allow-lists -/

/-- C1: `check_server_matches_profile` returns `[]` iff the observed
protocols and ciphers are subsets of the profile allow-lists; it emits one
error per element of each set difference (observed minus allowed), every
such element contributes its "must not support" message, every emitted error
is such a message, and an identifier that was not observed never produces an
error (in particular allowed-but-unobserved identifiers do not). -/
theorem check_server_matches_profile_spec (sup : SupportedSets) (P : SecurityProfile) :
    (check_server_matches_profile sup P = [] ↔
        sup.supported_protocols ⊆ P.tls_versions.toFinset ∧
          sup.supported_ciphers ⊆ (P.openssl_ciphersuites ++ P.openssl_ciphers).toFinset) ∧
      (check_server_matches_profile sup P).length =
        (sup.supported_protocols \ P.tls_versions.toFinset).card +
          (sup.supported_ciphers \ (P.openssl_ciphersuites ++ P.openssl_ciphers).toFinset).card ∧
      (∀ x ∈ (sup.supported_protocols \ P.tls_versions.toFinset) ∪
          (sup.supported_ciphers \ (P.openssl_ciphersuites ++ P.openssl_ciphers).toFinset),
        mustNotSupportMsg x ∈ check_server_matches_profile sup P) ∧
      (∀ e ∈ check_server_matches_profile sup P,
        ∃ x ∈ (sup.supported_protocols \ P.tls_versions.toFinset) ∪
            (sup.supported_ciphers \ (P.openssl_ciphersuites ++ P.openssl_ciphers).toFinset),
          e = mustNotSupportMsg x) ∧
      (∀ x, x ∉ sup.supported_protocols → x ∉ sup.supported_ciphers →
        mustNotSupportMsg x ∉ check_server_matches_profile sup P) := by
  simp only [check_server_matches_profile]
  refine ⟨?_, ?_, ?_, ?_, ?_⟩
  · rw [List.append_eq_nil, List.map_eq_nil_iff, List.map_eq_nil_iff,
      sort_le_eq_nil, sort_le_eq_nil,
      Finset.sdiff_eq_empty_iff_subset, Finset.sdiff_eq_empty_iff_subset]
  · simp [Finset.length_sort]
  · intro x hx
    rw [Finset.mem_union] at hx
    rw [List.mem_append]
    rcases hx with hx | hx
    · exact Or.inl (List.mem_map_of_mem _ (Finset.mem_sort _ |>.mpr hx))
    · exact Or.inr (List.mem_map_of_mem _ (Finset.mem_sort _ |>.mpr hx))
  · intro e he
    rw [List.mem_append] at he
    rcases he with he | he
    · obtain ⟨x, hx, rfl⟩ := List.mem_map.mp he
      exact ⟨x, Finset.mem_union_left _ (Finset.mem_sort _ |>.mp hx), rfl⟩
    · obtain ⟨x, hx, rfl⟩ := List.mem_map.mp he
      exact ⟨x, Finset.mem_union_right _ (Finset.mem_sort _ |>.mp hx), rfl⟩
  · intro x hp hc hmem
    rw [List.mem_append] at hmem
    rcases hmem with hmem | hmem
    · obtain ⟨y, hy, hxy⟩ := List.mem_map.mp hmem
      obtain rfl := mustNotSupportMsg_injective hxy.symm
      exact hp (Finset.mem_sdiff.mp (Finset.mem_sort _ |>.mp hy)).1
    · obtain ⟨y, hy, hxy⟩ := List.mem_map.mp hmem
      obtain rfl := mustNotSupportMsg_injective hxy.symm
      exact hc (Finset.mem_sdiff.mp (Finset.mem_sort _ |>.mp hy)).1

/-- Witness for C1 at a concrete snapshot and profile: the server of
`demoSupported` additionally answers on SSLv3, which the profile forbids. -/
theorem check_server_matches_profile_spec_witness :
    mustNotSupportMsg "SSLv3" ∈ check_server_matches_profile demoSupported demoProfile ∧
      mustNotSupportMsg "TLSv1.3" ∉ check_server_matches_profile demoSupported demoProfile :=
  ⟨(check_server_matches_profile_spec demoSupported demoProfile).2.2.1 "SSLv3" (by decide),
    (check_server_matches_profile_spec demoSupported demoProfile).2.2.2.2 "TLSv1.3"
      (by decide) (by decide)⟩

/-! ### C2: certificate checker, all-good snapshots and single flips -/

/-- All certificate flags "good": every trust-store path validation
succeeded, no path-validation errors, hostname matches, chain order valid,
no SHA-1 signature, no legacy Symantec anchor, at least 2 SCTs. -/
def certificateAllGood (r : CertificateInfoScanResult) : Prop :=
  (∀ pv ∈ r.path_validation_result_list, pv.was_validation_successful = true) ∧
    r.path_validation_error_list = [] ∧
    r.leaf_certificate_subject_matches_hostname = true ∧
    r.received_chain_has_valid_order = true ∧
    r.verified_chain_has_sha1_signature = false ∧
    r.verified_chain_has_legacy_symantec_anchor = false ∧
    2 ≤ r.leaf_certificate_signed_certificate_timestamps_count

instance (r : CertificateInfoScanResult) : Decidable (certificateAllGood r) := by
  unfold certificateAllGood
  infer_instance

/-- An all-good certificate record with one trust-store validation. -/
def demoCertInfo : CertificateInfoScanResult :=
  { path_validation_result_list := [⟨⟨"Mozilla"⟩, true, "ok"⟩]
    path_validation_error_list := []
    leaf_certificate_subject_matches_hostname := true
    received_chain_has_valid_order := true
    verified_chain_has_sha1_signature := false
    verified_chain_has_legacy_symantec_anchor := false
    leaf_certificate_signed_certificate_timestamps_count := 2 }

/-- C2: on an all-good record `check_certificate` returns no errors, and
flipping exactly one condition (one failing trust-store validation, a
non-empty path-validation-error list, hostname mismatch, wrong chain order,
SHA-1 in chain, legacy Symantec anchor, fewer than 2 SCTs) yields exactly
the one corresponding error; two flips surface both errors, so the rules are
evaluated independently without short-circuiting. -/
theorem check_certificate_spec (r : CertificateInfoScanResult)
    (h : certificateAllGood r) :
    check_certificate r = [] ∧
      (∀ fr : PathValidationResult, fr.was_validation_successful = false →
        check_certificate
            { r with path_validation_result_list := r.path_validation_result_list ++ [fr] } =
          [pathValidationMsg fr]) ∧
      (∀ l : List PathValidationError, l ≠ [] →
        check_certificate { r with path_validation_error_list := l } = [pathErrorListMsg l]) ∧
      check_certificate { r with leaf_certificate_subject_matches_hostname := false } =
        ["Leaf certificate subject does not match hostname!"] ∧
      check_certificate { r with received_chain_has_valid_order := false } =
        ["Certificate chain has wrong order."] ∧
      check_certificate { r with verified_chain_has_sha1_signature := true } =
        ["SHA1 signature found in chain."] ∧
      check_certificate { r with verified_chain_has_legacy_symantec_anchor := true } =
        ["Symantec legacy certificate found in chain."] ∧
      (∀ n : Nat, n < 2 →
        check_certificate { r with leaf_certificate_signed_certificate_timestamps_count := n } =
          [sctMsg n]) ∧
      check_certificate
          { { r with leaf_certificate_subject_matches_hostname := false } with
              received_chain_has_valid_order := false } =
        ["Leaf certificate subject does not match hostname!",
          "Certificate chain has wrong order."] := by
  obtain ⟨h1, h2, h3, h4, h5, h6, h7⟩ := h
  have hfilter : r.path_validation_result_list.filter
      (fun pv => !pv.was_validation_successful) = [] := by
    rw [List.filter_eq_nil_iff]
    intro pv hpv
    simp [h1 pv hpv]
  have hsct : ¬r.leaf_certificate_signed_certificate_timestamps_count < 2 :=
    Nat.not_lt.mpr h7
  refine ⟨?_, ?_, ?_, ?_, ?_, ?_, ?_, ?_, ?_⟩
  · simp [check_certificate, hfilter, h2, h3, h4, h5, h6, hsct]
  · intro fr hfr
    simp [check_certificate, List.filter_append, hfilter, hfr, h2, h3, h4, h5, h6, hsct]
  · intro l hl
    simp [check_certificate, hfilter, List.isEmpty_iff, hl, h3, h4, h5, h6, hsct]
  · simp [check_certificate, hfilter, h2, h4, h5, h6, hsct]
  · simp [check_certificate, hfilter, h2, h3, h5, h6, hsct]
  · simp [check_certificate, hfilter, h2, h3, h4, h6, hsct]
  · simp [check_certificate, hfilter, h2, h3, h4, h5, hsct]
  · intro n hn
    simp [check_certificate, hfilter, h2, h3, h4, h5, h6, hn]
  · simp [check_certificate, hfilter, h2, h5, h6, hsct]

/-- Witness for C2 at `demoCertInfo`: all-good yields no errors; a hostname
mismatch alone yields exactly the hostname error; an SCT count of 0 alone
yields exactly the SCT error naming the count. -/
theorem check_certificate_spec_witness :
    check_certificate demoCertInfo = [] ∧
      check_certificate { demoCertInfo with leaf_certificate_subject_matches_hostname := false } =
        ["Leaf certificate subject does not match hostname!"] ∧
      check_certificate
          { demoCertInfo with leaf_certificate_signed_certificate_timestamps_count := 0 } =
        [sctMsg 0] :=
  ⟨(check_certificate_spec demoCertInfo (by decide)).1,
    (check_certificate_spec demoCertInfo (by decide)).2.2.2.1,
    (check_certificate_spec demoCertInfo (by decide)).2.2.2.2.2.2.2.1 0 (by decide)⟩

/-! ### C3: HSTS header checker -/

lemma wrongAgeMsg_ne_notSet (a : Int) :
    "wrong HSTS age " ++ toString a ≠ "HSTS header not set" := by
  intro h
  have h2 : ("wrong HSTS age " ++ toString a).data.head? =
      ("HSTS header not set").data.head? := by rw [h]
  rw [show ("wrong HSTS age " ++ toString a).data.head? = some 'w' from rfl] at h2
  exact absurd h2 (by decide)

/-- C3: `check_hsts_age` returns exactly `["HSTS header not set"]` when the
header is absent; exactly one error naming the observed age when the header
carries `max_age = min_age - 1`; no error when `max_age ≥ min_age`; it emits
at most one error, and the absence error appears exactly for the absent
header, so the absence and age-too-low errors never co-occur. -/
theorem check_hsts_age_spec (P : SecurityProfile) :
    check_hsts_age none P = ["HSTS header not set"] ∧
      check_hsts_age (some ⟨P.hsts_min_age - 1⟩) P =
        ["wrong HSTS age " ++ toString (P.hsts_min_age - 1)] ∧
      (∀ a : Int, P.hsts_min_age ≤ a → check_hsts_age (some ⟨a⟩) P = []) ∧
      (∀ hdr, (check_hsts_age hdr P).length ≤ 1) ∧
      (∀ hdr, "HSTS header not set" ∈ check_hsts_age hdr P ↔ hdr = none) := by
  refine ⟨rfl, ?_, ?_, ?_, ?_⟩
  · simp [check_hsts_age]
  · intro a ha
    simp [check_hsts_age, Int.not_lt.mpr ha]
  · intro hdr
    match hdr with
    | none => simp [check_hsts_age]
    | some hd =>
      by_cases hlt : hd.max_age < P.hsts_min_age <;> simp [check_hsts_age, hlt]
  · intro hdr
    match hdr with
    | none => simp [check_hsts_age]
    | some hd =>
      by_cases hlt : hd.max_age < P.hsts_min_age <;>
        simp [check_hsts_age, hlt, (wrongAgeMsg_ne_notSet hd.max_age).symm]

/-- Witness for C3 at the concrete profile minimum 15768000: absent header
gives the fixed absence error, age 15767999 gives the age error, age
31536000 gives no error. -/
theorem check_hsts_age_spec_witness :
    check_hsts_age none demoProfile = ["HSTS header not set"] ∧
      check_hsts_age (some ⟨15767999⟩) demoProfile = ["wrong HSTS age 15767999"] ∧
      check_hsts_age (some ⟨31536000⟩) demoProfile = [] :=
  ⟨(check_hsts_age_spec demoProfile).1,
    (check_hsts_age_spec demoProfile).2.1,
    (check_hsts_age_spec demoProfile).2.2.1 31536000 (by decide)⟩

/-! ### C5 and C10: vulnerability checker -/

/-- C5: the Heartbleed message appears iff the Heartbleed verdict is true,
the CCS-injection message (citing CVE-2014-0224) iff the CCS verdict is
true, and the ROBOT message iff the ROBOT verdict is a weak or strong
oracle; Heartbleed-only verdicts give exactly the one Heartbleed error, and
all-negative verdicts (either not-vulnerable state, or the unknown state)
give zero errors. -/
theorem check_vulnerabilities_spec (hb ccs : Bool) (robot : RobotScanResultEnum) :
    (heartbleedMsg ∈ check_vulnerabilities hb ccs robot ↔ hb = true) ∧
      (ccsInjectionMsg ∈ check_vulnerabilities hb ccs robot ↔ ccs = true) ∧
      (robotMsg ∈ check_vulnerabilities hb ccs robot ↔
        robot = RobotScanResultEnum.VULNERABLE_WEAK_ORACLE ∨
          robot = RobotScanResultEnum.VULNERABLE_STRONG_ORACLE) ∧
      check_vulnerabilities true false RobotScanResultEnum.NOT_VULNERABLE_NO_ORACLE =
        [heartbleedMsg] ∧
      check_vulnerabilities false false RobotScanResultEnum.NOT_VULNERABLE_NO_ORACLE = [] ∧
      check_vulnerabilities false false RobotScanResultEnum.NOT_VULNERABLE_RSA_NOT_SUPPORTED
        = [] ∧
      check_vulnerabilities false false RobotScanResultEnum.UNKNOWN_INCONSISTENT_RESULTS
        = [] := by
  cases hb <;> cases ccs <;> cases robot <;> decide

/-- C10: whatever the verdicts, the emitted error list is an ordered
sublist of the fixed sequence Heartbleed message, CCS-injection message,
ROBOT message. -/
theorem check_vulnerabilities_order (hb ccs : Bool) (robot : RobotScanResultEnum) :
    (check_vulnerabilities hb ccs robot).Sublist [heartbleedMsg, ccsInjectionMsg, robotMsg] := by
  cases hb <;> cases ccs <;> cases robot <;> decide

/-! ### C8: the protocol/cipher scan loop -/

lemma scanLoop_fst_mem (f : String → List String) (l : List String) (c : String) :
    c ∈ (scanLoop f l).1 ↔ ∃ n ∈ l, c ∈ f n := by
  induction l with
  | nil => simp [scanLoop]
  | cons n ns ih => simp [scanLoop, ih]

lemma scanLoop_snd_mem (f : String → List String) (l : List String) (x : String) :
    x ∈ (scanLoop f l).2 ↔ x ∈ l ∧ f x ≠ [] := by
  induction l with
  | nil => simp [scanLoop]
  | cons n ns ih =>
    by_cases h : f n = []
    · have hc : ¬(f n).length ≠ 0 := by simp [h]
      simp only [scanLoop, if_neg hc, List.nil_append, ih, List.mem_cons]
      constructor
      · rintro ⟨hx, hfx⟩
        exact ⟨Or.inr hx, hfx⟩
      · rintro ⟨(rfl | hx), hfx⟩
        · exact absurd h hfx
        · exact ⟨hx, hfx⟩
    · have hc : (f n).length ≠ 0 := by
        simpa [List.length_eq_zero] using h
      simp only [scanLoop, if_pos hc, List.singleton_append, ih, List.mem_cons]
      constructor
      · rintro (rfl | ⟨hx, hfx⟩)
        · exact ⟨Or.inl rfl, h⟩
        · exact ⟨Or.inr hx, hfx⟩
      · rintro ⟨(rfl | hx), hfx⟩
        · exact Or.inl rfl
        · exact Or.inr ⟨hx, hfx⟩

/-- A server answering one cipher under the TLS 1.0 scan command only. -/
def demoAccepted : String → List String :=
  fun n => if n = "TLSv1" then ["AES256-SHA"] else []

/-- Counterexample to C8 as stated: the third scan-command key is the string
"TLSv1", not "TLSv1.0"; a server accepting a cipher only under TLS 1.0 ends
up with supported protocol set exactly {"TLSv1"}. -/
theorem scan_commands_keys_counterexample :
    SCAN_COMMANDS_keys ≠ ["SSLv2", "SSLv3", "TLSv1.0", "TLSv1.1", "TLSv1.2", "TLSv1.3"] ∧
      "TLSv1.0" ∉ SCAN_COMMANDS_keys ∧
      (scan_supported_ciphers_and_protocols demoAccepted).supported_protocols = {"TLSv1"} ∧
      (scan_supported_ciphers_and_protocols demoAccepted).supported_ciphers =
        {"AES256-SHA"} := by
  decide

/-- C8 (amended: the TLS 1.0 entry is keyed "TLSv1"): the scan iterates over
exactly the fixed ordered key list SSLv2, SSLv3, TLSv1, TLSv1.1, TLSv1.2,
TLSv1.3; `supported_ciphers` is the union over all versions of the accepted
cipher identifiers, and a version is in `supported_protocols` iff its scan
accepted at least one cipher. -/
theorem scan_supported_spec (f : String → List String) :
    SCAN_COMMANDS_keys = ["SSLv2", "SSLv3", "TLSv1", "TLSv1.1", "TLSv1.2", "TLSv1.3"] ∧
      (∀ c, c ∈ (scan_supported_ciphers_and_protocols f).supported_ciphers ↔
        ∃ n ∈ SCAN_COMMANDS_keys, c ∈ f n) ∧
      (∀ n, n ∈ (scan_supported_ciphers_and_protocols f).supported_protocols ↔
        n ∈ SCAN_COMMANDS_keys ∧ f n ≠ []) := by
  refine ⟨rfl, ?_, ?_⟩
  · intro c
    simp [scan_supported_ciphers_and_protocols, scanLoop_fst_mem]
  · intro n
    simp [scan_supported_ciphers_and_protocols, scanLoop_snd_mem]

/-- Witness for C8 at the concrete scan `demoAccepted`. -/
theorem scan_supported_spec_witness :
    "AES256-SHA" ∈ (scan_supported_ciphers_and_protocols demoAccepted).supported_ciphers ∧
      "TLSv1" ∈ (scan_supported_ciphers_and_protocols demoAccepted).supported_protocols :=
  ⟨((scan_supported_spec demoAccepted).2.1 "AES256-SHA").mpr ⟨"TLSv1", by decide, by decide⟩,
    ((scan_supported_spec demoAccepted).2.2 "TLSv1").mpr ⟨by decide, by decide⟩⟩

/-! ### C4: the report builder and the composition in `run` -/

/-- C4: `TLSProfilerResult` derives `validated` iff the validation-error
list is empty, `profile_matched` iff the profile-error list is empty,
`vulnerable` iff the vulnerability-error list is non-empty, `all_ok` as the
conjunction with negated `vulnerable`, stores the three lists unchanged, and
`run` passes as profile errors exactly the protocol/cipher checker errors
followed by the HSTS checker errors. -/
theorem result_builder_spec (v p vu : List String) (P : SecurityProfile)
    (s : ServerScanResponses) :
    ((mkTLSProfilerResult v p vu).validated = true ↔ v = []) ∧
      ((mkTLSProfilerResult v p vu).profile_matched = true ↔ p = []) ∧
      ((mkTLSProfilerResult v p vu).vulnerable = true ↔ 0 < vu.length) ∧
      (mkTLSProfilerResult v p vu).all_ok =
        ((mkTLSProfilerResult v p vu).validated &&
          (mkTLSProfilerResult v p vu).profile_matched &&
          !(mkTLSProfilerResult v p vu).vulnerable) ∧
      (mkTLSProfilerResult v p vu).validation_errors = v ∧
      (mkTLSProfilerResult v p vu).profile_errors = p ∧
      (mkTLSProfilerResult v p vu).vulnerability_errors = vu ∧
      (runChecks P s).profile_errors =
        check_server_matches_profile
            (scan_supported_ciphers_and_protocols s.accepted_cipher_names) P ++
          check_hsts_age s.strict_transport_security_header P := by
  refine ⟨?_, ?_, ?_, rfl, rfl, rfl, rfl, rfl⟩
  · simp [mkTLSProfilerResult, List.length_eq_zero]
  · simp [mkTLSProfilerResult, List.length_eq_zero]
  · simp [mkTLSProfilerResult]

/-! ### C9: the evaluation is a pure function of snapshot and profile -/

/-- C9: re-evaluating the checks on the same (snapshot, profile) pair gives
the same report; a reachable profiler run returns exactly the report
computed by the pure `runChecks`, so nothing besides the two inputs
influences the result. -/
theorem runChecks_deterministic (P : SecurityProfile) (s : ServerScanResponses) :
    runChecks P s = runChecks P s ∧
      run (initProfiler P (Except.ok s)) = some (runChecks P s) ∧
      run (initProfiler P (Except.ok s)) = run (initProfiler P (Except.ok s)) :=
  ⟨rfl, rfl, rfl⟩

/-! ### C6: connectivity failure produces no report -/

/-- C6 (amended: the stored outcome carries the probe's human-readable
cause, not the target): when connectivity fails, `run` returns no report,
the profiler records the connectivity error message in `server_error` and no
server info; when connectivity succeeds, `run` does return a report. -/
theorem connectivity_failure_spec (P : SecurityProfile)
    (e : ServerConnectivityError) (s : ServerScanResponses) :
    run (initProfiler P (Except.error e)) = none ∧
      (initProfiler P (Except.error e)).server_error = some e.error_message ∧
      (initProfiler P (Except.error e)).server_info = none ∧
      (run (initProfiler P (Except.ok s))).isSome = true :=
  ⟨rfl, rfl, rfl, rfl⟩

/-- Counterexample to C6 as stated: the caller-visible outcome does not
carry the target — two failed probes of distinct hostnames with the same
error message leave identical profiler states. -/
theorem connectivity_outcome_counterexample :
    initProfiler demoProfile (Except.error ⟨"host-a.example", "Connection refused"⟩) =
        initProfiler demoProfile (Except.error ⟨"host-b.example", "Connection refused"⟩) ∧
      ("host-a.example" : String) ≠ "host-b.example" := by
  exact ⟨rfl, by decide⟩

/-! ### C7: profile lookup on a missing name -/

/-- A fetched document whose `configurations` map lacks the target name. -/
def emptyConfigurationsDoc : ProfilesDocument :=
  { version := "5.0", configurations := [] }

/-- C7: looking up a profile name absent from the fetched document raises an
uncaught Python `KeyError` (the embedding's error value), not a dedicated
`ProfileNotFound` configuration error. -/
theorem lookupTargetProfile_missing_keyError :
    lookupTargetProfile emptyConfigurationsDoc "modern" =
      Except.error (PyExc.keyError "modern") := rfl

end TLSProfilerModel
